import Mathlib

/-!
Formal model of `src/scripts/visuals.js`, the particle/line background
animation module.  Numbers are modelled as rationals (`ℚ`); the one place
where JavaScript number semantics matter (division by a zero distance,
which produces `NaN`) is modelled separately with `JsNum := Option ℚ`,
where `none` stands for a non-finite value (NaN or ±Infinity).
Randomness (`Math.random`) is modelled by oracle streams `ℕ → Particle`,
and the square root used for distances (`Math.sqrt`) either by an oracle
`sq : ℚ → ℚ` (where its value is irrelevant) or by passing the distance
`d` together with the hypothesis `IsDist … d` stating that `d` is the
Euclidean distance the source computes.
-/

/-- The environmental inputs the script reads: the reduced-motion media
query, `window.innerWidth` / `window.innerHeight`, the
`document.body.dataset.visuals` attribute (`none` = unset), and
`window.devicePixelRatio`. -/
structure Env where
  reducedMotion : Bool
  innerWidth : ℚ
  innerHeight : ℚ
  visuals : Option String
  dpr : ℚ
  deriving DecidableEq

/-- A particle, as created by `createParticle` (lines 42-50): position,
velocity, radius. -/
structure Particle where
  x : ℚ
  y : ℚ
  vx : ℚ
  vy : ℚ
  r : ℚ
  deriving DecidableEq

/-- `shouldRun` (lines 18-23): running is permitted only when the platform
does not report reduced motion, the viewport is wider than 640, and the
`data-visuals` attribute is not exactly `"off"`. -/
def shouldRun (env : Env) : Bool :=
  if env.reducedMotion then false
  else if env.innerWidth ≤ 640 then false
  else if env.visuals = some "off" then false
  else true

/-- The target particle count
`Math.max(30, Math.min(120, Math.floor(area / 16000)))`
(line 35 and again line 153). -/
def targetCount (wd ht : ℚ) : ℕ :=
  (max 30 (min 120 ⌊wd * ht / 16000⌋)).toNat

/-- The grow/trim loops of `resize` (lines 36-39): push fresh particles
from the supply while below the target, pop from the end while above. -/
def resizeList (target : ℕ) (supply : ℕ → Particle) (ps : List Particle) :
    List Particle :=
  if ps.length < target then ps ++ (List.range (target - ps.length)).map supply
  else ps.take target

/-- Line 145 of `init`: `if(!document.body.dataset.visuals)
document.body.dataset.visuals = 'on'`. -/
def normalizeVisuals (v : Option String) : Option String :=
  if v = none then some "on" else v

/-- The observable outcome of `init` (lines 143-166): the normalized
attribute, the particle array, whether the event listeners were
registered, and the scheduled frame handle (if any). -/
structure InitResult where
  visuals : Option String
  particles : List Particle
  listenersRegistered : Bool
  animationId : Option ℕ
  deriving DecidableEq

/-- `init` (lines 143-166): normalize the attribute, re-check the gate
against the normalized attribute, and either return at once or size the
surface via `resize()` (which already grows `particles` from empty to the
target count), then push `target` further particles (lines 152-154),
register the listeners and schedule the first frame. -/
def init (env : Env) (supply supply2 : ℕ → Particle) : InitResult :=
  let v := normalizeVisuals env.visuals
  let env' := { env with visuals := v }
  if shouldRun env' = false then
    { visuals := v, particles := [], listenersRegistered := false,
      animationId := none }
  else
    let t := targetCount env.innerWidth env.innerHeight
    let afterResize := resizeList t supply []
    let ps := afterResize ++ (List.range t).map supply2
    { visuals := v, particles := ps, listenersRegistered := true,
      animationId := some 1 }

/-- The horizontal wrap of the frame step (lines 68-69): two sequential
conditional assignments with a 10-pixel margin. -/
def wrapX (w x : ℚ) : ℚ :=
  let x1 := if x < -10 then w + 10 else x
  if w + 10 < x1 then -10 else x1

/-- The vertical wrap (lines 70-71), same shape as `wrapX`. -/
def wrapY (h y : ℚ) : ℚ :=
  let y1 := if y < -10 then h + 10 else y
  if h + 10 < y1 then -10 else y1

/-- Integration plus wrap (lines 64-71): add the velocity to the position,
then wrap each axis independently. -/
def moveWrap (w h : ℚ) (p : Particle) : Particle :=
  { p with x := wrapX w (p.x + p.vx), y := wrapY h (p.y + p.vy) }

/-- The per-particle body of the frame-step loop (lines 63-83) over `ℚ`:
integrate and wrap, then, if a pointer is active, apply the mouse
repulsion.  `sq` is an oracle for `Math.sqrt`; the theorems that depend
on the repulsion arithmetic use `mouseRepel` below instead, which keeps
the distance explicit and models the JavaScript division exactly. -/
def updateParticle (sq : ℚ → ℚ) (mouse : Option (ℚ × ℚ)) (w h : ℚ)
    (p : Particle) : Particle :=
  let p1 := moveWrap w h p
  match mouse with
  | none => p1
  | some (mx, my) =>
    let dx := p1.x - mx
    let dy := p1.y - my
    let dist := sq (dx * dx + dy * dy)
    if dist < 90 then
      let force := (90 - dist) / 90
      { p1 with vx := p1.vx + dx / dist * (6/10) * force,
                vy := p1.vy + dy / dist * (6/10) * force }
    else p1

/-- A JavaScript number that is either a finite value (`some q`) or a
non-finite one (`none`, covering NaN and ±Infinity). -/
abbrev JsNum := Option ℚ

/-- Addition on `JsNum`: non-finite operands propagate. -/
def jsAdd : JsNum → JsNum → JsNum
  | some a, some b => some (a + b)
  | _, _ => none

/-- Multiplication on `JsNum`: non-finite operands propagate. -/
def jsMul : JsNum → JsNum → JsNum
  | some a, some b => some (a * b)
  | _, _ => none

/-- Division on `JsNum`: dividing by zero never yields a finite value
(JavaScript gives `0/0 = NaN` and `x/0 = ±Infinity`). -/
def jsDiv : JsNum → JsNum → JsNum
  | some a, some b => if b = 0 then none else some (a / b)
  | _, _ => none

/-- `d` is the Euclidean distance between `(x1, y1)` and `(x2, y2)`: the
value `Math.sqrt(dx*dx + dy*dy)` returns in the source. -/
def IsDist (x1 y1 x2 y2 d : ℚ) : Prop :=
  0 ≤ d ∧ d ^ 2 = (x1 - x2) ^ 2 + (y1 - y2) ^ 2

instance (x1 y1 x2 y2 d : ℚ) : Decidable (IsDist x1 y1 x2 y2 d) :=
  inferInstanceAs (Decidable (_ ∧ _))

/-- The mouse-repulsion block (lines 74-83) with JavaScript number
semantics for the velocity updates.  `mouse` is `none` when no pointer is
active (`mouse.x === null`); `dist` is the value `Math.sqrt` returned for
this particle (passed explicitly, with `IsDist` as its specification).
The source computes `p.vx += (dx / dist) * 0.6 * force`. -/
def mouseRepel (mouse : Option (ℚ × ℚ)) (p : Particle) (dist : ℚ) :
    JsNum × JsNum :=
  match mouse with
  | none => (some p.vx, some p.vy)
  | some (mx, my) =>
    let dx := p.x - mx
    let dy := p.y - my
    if dist < 90 then
      let force := (90 - dist) / 90
      (jsAdd (some p.vx)
        (jsMul (jsMul (jsDiv (some dx) (some dist)) (some (6/10))) (some force)),
       jsAdd (some p.vy)
        (jsMul (jsMul (jsDiv (some dy) (some dist)) (some (6/10))) (some force)))
    else (some p.vx, some p.vy)

/-- A drawing command issued to the canvas context during a frame. -/
inductive DrawOp
  | clear (w h : ℚ)
  | circle (x y r : ℚ)
  | line (x1 y1 x2 y2 alpha : ℚ)
  deriving DecidableEq

/-- The per-pair decision of the line pass (lines 100-108): draw a line
with alpha `0.12 * (1 - dist / maxDistance)` exactly when the distance is
below `maxDistance = 120`.  `dist` is the value `Math.sqrt` returned. -/
def pairLine (a b : Particle) (dist : ℚ) : Option DrawOp :=
  if dist < 120 then
    some (DrawOp.line a.x a.y b.x b.y ((12/100) * (1 - dist / 120)))
  else none

/-- Lines from one particle to every later particle (inner loop,
lines 94-109). -/
def linesFrom (sq : ℚ → ℚ) (a : Particle) (rest : List Particle) :
    List DrawOp :=
  rest.filterMap fun b =>
    pairLine a b (sq ((a.x - b.x) * (a.x - b.x) + (a.y - b.y) * (a.y - b.y)))

/-- All pairwise lines (outer loop, lines 93-110): every unordered pair
is visited once. -/
def linesAll (sq : ℚ → ℚ) : List Particle → List DrawOp
  | [] => []
  | a :: rest => linesFrom sq a rest ++ linesAll sq rest

/-- The module-level mutable state (lines 10-11) together with the
environment and the set of pending (scheduled, not yet fired)
`requestAnimationFrame` handles.  `nextHandle` is the handle the host
will hand out next. -/
structure World where
  env : Env
  canvasW : ℤ
  canvasH : ℤ
  particles : List Particle
  mouse : Option (ℚ × ℚ)
  animationId : Option ℕ
  pending : List ℕ
  nextHandle : ℕ

/-- `cancelAnimationFrame(id)`: remove the handle from the pending set;
a stale or null handle is a no-op. -/
def cancelPending (pending : List ℕ) (id : Option ℕ) : List ℕ :=
  match id with
  | none => pending
  | some hnd => pending.filter (· ≠ hnd)

/-- `resize` (lines 25-40): recompute the physical canvas size from the
logical viewport size and the device pixel ratio (`|| 1` guards a zero
ratio), then grow or trim the particle array to the target count. -/
def resize (supply : ℕ → Particle) (s : World) : World :=
  let dpr := if s.env.dpr = 0 then 1 else s.env.dpr
  { s with
    canvasW := max 1 ⌊s.env.innerWidth * dpr⌋,
    canvasH := max 1 ⌊s.env.innerHeight * dpr⌋,
    particles := resizeList (targetCount s.env.innerWidth s.env.innerHeight)
      supply s.particles }

/-- The frame step (lines 52-113).  If the gate now fails: cancel the
(already fired, hence stale) handle, null it, and emit only the
`clearCanvas()` rectangle (physical canvas size, line 116).  Otherwise:
clear the logical viewport, update every particle and draw it, draw the
pairwise lines, and schedule the next frame, capturing its handle. -/
def step (sq : ℚ → ℚ) (s : World) : World × List DrawOp :=
  if shouldRun s.env = false then
    ({ s with pending := cancelPending s.pending s.animationId,
              animationId := none },
     [DrawOp.clear (s.canvasW : ℚ) (s.canvasH : ℚ)])
  else
    let ps := s.particles.map
      (updateParticle sq s.mouse s.env.innerWidth s.env.innerHeight)
    ({ s with particles := ps,
              animationId := some s.nextHandle,
              pending := s.pending ++ [s.nextHandle],
              nextHandle := s.nextHandle + 1 },
     DrawOp.clear s.env.innerWidth s.env.innerHeight ::
       (ps.map fun p => DrawOp.circle p.x p.y p.r) ++ linesAll sq ps)

/-- The scheduling-relevant fragment of the state, for the frame-handle
invariant. -/
structure LoopState where
  animationId : Option ℕ
  pending : List ℕ
  nextHandle : ℕ
  deriving DecidableEq

/-- `animationId = requestAnimationFrame(step)`: the host hands out a
fresh handle, which becomes pending. -/
def schedule (s : LoopState) : LoopState :=
  { animationId := some s.nextHandle,
    pending := s.pending ++ [s.nextHandle],
    nextHandle := s.nextHandle + 1 }

/-- The scheduling effect of one `step` call, entered after the fired
handle has been consumed: with the gate passing, schedule the next frame
(line 112); with the gate failing, cancel the stale handle and null it
(lines 54-55). -/
def stepSched (s : LoopState) (gate : Bool) : LoopState :=
  if gate then schedule s
  else { animationId := none,
         pending := cancelPending s.pending s.animationId,
         nextHandle := s.nextHandle }

/-- `onVisibility` (lines 133-140): on hiding, cancel any scheduled frame
and null the handle; on showing, schedule one frame if none is pending
and the gate passes. -/
def onVisibility (s : LoopState) (hidden gate : Bool) : LoopState :=
  if hidden then
    { animationId := none,
      pending := cancelPending s.pending s.animationId,
      nextHandle := s.nextHandle }
  else
    if s.animationId.isNone && gate then schedule s else s

/-- The states the scheduling fragment can reach: after `init` (which
either schedules the first frame, line 165, or returns before touching
the loop), a pending frame may fire (the host consumes its handle and
runs `step`), and visibility changes may occur.  Allowing visibility
events even after a gate-denied `init` (where no listener exists) only
enlarges the reachable set. -/
inductive Reach : LoopState → Prop
  | initRun : Reach ⟨some 1, [1], 2⟩
  | initSkip : Reach ⟨none, [], 1⟩
  | fire (s : LoopState) (hnd : ℕ) (gate : Bool) : Reach s →
      s.pending = [hnd] →
      Reach (stepSched ⟨s.animationId, [], s.nextHandle⟩ gate)
  | vis (s : LoopState) (hidden gate : Bool) : Reach s →
      Reach (onVisibility s hidden gate)

/-- The inductive invariant: the stored handle and the pending set agree —
either nothing is stored and nothing is pending, or exactly the stored
handle is pending. -/
def HandleInv (s : LoopState) : Prop :=
  (s.animationId = none ∧ s.pending = []) ∨
  (∃ hnd, s.animationId = some hnd ∧ s.pending = [hnd])

lemma handleInv_schedule (s : LoopState) (h : s.pending = []) :
    HandleInv (schedule s) := by
  right
  exact ⟨s.nextHandle, rfl, by simp [schedule, h]⟩

lemma reach_handleInv (s : LoopState) (hs : Reach s) : HandleInv s := by
  induction hs with
  | initRun => exact Or.inr ⟨1, rfl, rfl⟩
  | initSkip => exact Or.inl ⟨rfl, rfl⟩
  | fire s hnd gate _ hp ih =>
    unfold stepSched
    split_ifs with hg
    · exact handleInv_schedule _ rfl
    · exact Or.inl ⟨rfl, by cases h : s.animationId <;> simp [cancelPending, h]⟩
  | vis s hidden gate _ ih =>
    unfold onVisibility
    split_ifs with hh hv
    · rcases ih with ⟨ha, hp⟩ | ⟨hnd, ha, hp⟩
      · exact Or.inl ⟨rfl, by simp [cancelPending, ha, hp]⟩
      · exact Or.inl ⟨rfl, by simp [cancelPending, ha, hp]⟩
    · rcases ih with ⟨ha, hp⟩ | ⟨hnd, ha, hp⟩
      · exact handleInv_schedule _ hp
      · simp [ha] at hv
    · exact ih

lemma handleInv_pending_length (s : LoopState) (h : HandleInv s) :
    s.pending.length ≤ 1 := by
  rcases h with ⟨_, hp⟩ | ⟨hnd, _, hp⟩ <;> simp [hp]

lemma resizeList_length (target : ℕ) (supply : ℕ → Particle)
    (ps : List Particle) : (resizeList target supply ps).length = target := by
  unfold resizeList
  split_ifs with h
  · simp only [List.length_append, List.length_map, List.length_range]
    omega
  · simp only [List.length_take]
    omega

lemma targetCount_1920_1080 : targetCount 1920 1080 = 120 := by
  have hfl : ⌊(1920 : ℚ) * 1080 / 16000⌋ = 129 := by
    rw [Int.floor_eq_iff]
    norm_num
  unfold targetCount
  rw [hfl]
  rfl

lemma wrapX_mem (w x : ℚ) (hw : 0 ≤ w) :
    -10 ≤ wrapX w x ∧ wrapX w x ≤ w + 10 := by
  simp only [wrapX]
  split_ifs with h1 h2 h3 <;> constructor <;> linarith

lemma wrapY_mem (h y : ℚ) (hh : 0 ≤ h) :
    -10 ≤ wrapY h y ∧ wrapY h y ≤ h + 10 := by
  simp only [wrapY]
  split_ifs with h1 h2 h3 <;> constructor <;> linarith

lemma updateParticle_pos (sq : ℚ → ℚ) (mouse : Option (ℚ × ℚ)) (w h : ℚ)
    (p : Particle) :
    (updateParticle sq mouse w h p).x = wrapX w (p.x + p.vx) ∧
    (updateParticle sq mouse w h p).y = wrapY h (p.y + p.vy) := by
  unfold updateParticle moveWrap
  cases mouse with
  | none => exact ⟨rfl, rfl⟩
  | some m =>
    obtain ⟨mx, my⟩ := m
    dsimp only
    split_ifs <;> exact ⟨rfl, rfl⟩

/-- C2: `shouldRun` returns `true` iff no reduced-motion preference is
reported, the viewport is strictly wider than 640, and `data-visuals` is
not exactly `"off"`; for any width ≤ 640 it returns `false` regardless of
the other inputs. -/
theorem shouldRun_gate_spec :
    (∀ env : Env, shouldRun env = true ↔
      (env.reducedMotion = false ∧ 640 < env.innerWidth ∧
        env.visuals ≠ some "off")) ∧
    (∀ env : Env, env.innerWidth ≤ 640 → shouldRun env = false) := by
  constructor
  · intro env
    unfold shouldRun
    split_ifs with h1 h2 h3 <;> simp_all [not_le]
  · intro env h
    cases hb : env.reducedMotion with
    | true => simp [shouldRun, hb]
    | false => simp [shouldRun, hb, h]

/-- C2 witness: a 600-wide viewport is denied even with every other input
favourable. -/
theorem shouldRun_gate_spec_witness :
    shouldRun ⟨false, 600, 800, none, 1⟩ = false :=
  shouldRun_gate_spec.2 ⟨false, 600, 800, none, 1⟩ (by norm_num)

/-- C3: after every `resize` the particle array's length equals
`max(30, min(120, floor(area / 16000)))`, and for a 1920×1080 viewport
the target is 120. -/
theorem resize_count_spec :
    (∀ (supply : ℕ → Particle) (s : World),
      ((resize supply s).particles).length =
        targetCount s.env.innerWidth s.env.innerHeight) ∧
    targetCount 1920 1080 = 120 := by
  refine ⟨?_, targetCount_1920_1080⟩
  intro supply s
  simp [resize, resizeList_length]

/-- C5: after the wrap phase every particle position lies in
`[-10, w+10] × [-10, h+10]`; each axis wraps independently to the
opposite edge's margin; yet a position inside `[0, w] × [0, h]` is not
guaranteed. -/
theorem wrap_bounds_spec :
    (∀ (sq : ℚ → ℚ) (mouse : Option (ℚ × ℚ)) (w h : ℚ) (p : Particle),
      0 ≤ w → 0 ≤ h →
        -10 ≤ (updateParticle sq mouse w h p).x ∧
        (updateParticle sq mouse w h p).x ≤ w + 10 ∧
        -10 ≤ (updateParticle sq mouse w h p).y ∧
        (updateParticle sq mouse w h p).y ≤ h + 10) ∧
    (∀ w x : ℚ, x < -10 → wrapX w x = w + 10) ∧
    (∀ w x : ℚ, 0 ≤ w → w + 10 < x → wrapX w x = -10) ∧
    (∃ (w h : ℚ) (p : Particle), 0 ≤ w ∧ 0 ≤ h ∧
      (updateParticle id none w h p).x < 0) := by
  refine ⟨?_, ?_, ?_, ?_⟩
  · intro sq mouse w h p hw hh
    obtain ⟨hx, hy⟩ := updateParticle_pos sq mouse w h p
    rw [hx, hy]
    obtain ⟨hx1, hx2⟩ := wrapX_mem w (p.x + p.vx) hw
    obtain ⟨hy1, hy2⟩ := wrapY_mem h (p.y + p.vy) hh
    exact ⟨hx1, hx2, hy1, hy2⟩
  · intro w x hx
    simp only [wrapX]
    rw [if_pos hx, if_neg (by linarith)]
  · intro w x hw hx
    have hx' : ¬ x < -10 := by linarith
    simp only [wrapX]
    rw [if_neg hx', if_pos hx]
  · refine ⟨100, 100, ⟨-5, -5, 0, 0, 1⟩, by norm_num, by norm_num, ?_⟩
    have := updateParticle_pos id none 100 100 ⟨-5, -5, 0, 0, 1⟩
    rw [this.1]
    norm_num [wrapX]

/-- C5 witness: a concrete particle stays within the margins. -/
theorem wrap_bounds_spec_witness :
    -10 ≤ (updateParticle id none 100 100 ⟨0, 0, 5, 5, 1⟩).x ∧
    (updateParticle id none 100 100 ⟨0, 0, 5, 5, 1⟩).x ≤ 100 + 10 ∧
    -10 ≤ (updateParticle id none 100 100 ⟨0, 0, 5, 5, 1⟩).y ∧
    (updateParticle id none 100 100 ⟨0, 0, 5, 5, 1⟩).y ≤ 100 + 10 :=
  wrap_bounds_spec.1 id none 100 100 ⟨0, 0, 5, 5, 1⟩ (by norm_num) (by norm_num)

/-- C7: a pair at Euclidean distance `d` gets a connecting line exactly
when `d < 120`, with alpha `0.12 * (1 - d / 120)`; at `d = 60` the alpha
is `0.06`. -/
theorem line_alpha_spec (a b : Particle) (d : ℚ)
    (hd : IsDist a.x a.y b.x b.y d) :
    ((pairLine a b d).isSome ↔ d < 120) ∧
    (d < 120 → pairLine a b d =
      some (DrawOp.line a.x a.y b.x b.y ((12/100) * (1 - d / 120)))) ∧
    (d = 60 → pairLine a b d =
      some (DrawOp.line a.x a.y b.x b.y (6/100))) := by
  refine ⟨?_, ?_, ?_⟩
  · unfold pairLine
    split_ifs with h <;> simp [h]
  · intro h
    simp [pairLine, h]
  · intro h
    subst h
    rw [pairLine, if_pos (by norm_num)]
    norm_num

/-- C7 witness: the particles `(0,0)` and `(60,0)` are at distance 60 and
get a line of alpha `0.06`. -/
theorem line_alpha_spec_witness :
    ((pairLine ⟨0, 0, 0, 0, 1⟩ ⟨60, 0, 0, 0, 1⟩ 60).isSome ↔ (60 : ℚ) < 120) ∧
    ((60 : ℚ) < 120 → pairLine ⟨0, 0, 0, 0, 1⟩ ⟨60, 0, 0, 0, 1⟩ 60 =
      some (DrawOp.line 0 0 60 0 ((12/100) * (1 - 60 / 120)))) ∧
    ((60 : ℚ) = 60 → pairLine ⟨0, 0, 0, 0, 1⟩ ⟨60, 0, 0, 0, 1⟩ 60 =
      some (DrawOp.line 0 0 60 0 (6/100))) :=
  line_alpha_spec ⟨0, 0, 0, 0, 1⟩ ⟨60, 0, 0, 0, 1⟩ 60 ⟨by norm_num, by norm_num⟩

/-- C6 (amended): a particle at distance `0 < d < 90` from the pointer
gets exactly the increment `(dx/d, dy/d) * 0.6 * (90-d)/90` — a vector of
magnitude `0.6 * (90-d)/90` (stated via squares) along the positively
scaled unit vector from the pointer toward the particle; at `d ≥ 90`, or
with no active pointer, the velocity is unchanged. -/
theorem repel_formula_spec (mx my : ℚ) (p : Particle) (d : ℚ)
    (hd : IsDist p.x p.y mx my d) (hpos : 0 < d) :
    (d < 90 →
      mouseRepel (some (mx, my)) p d =
        (some (p.vx + (p.x - mx) / d * (6/10) * ((90 - d) / 90)),
         some (p.vy + (p.y - my) / d * (6/10) * ((90 - d) / 90))) ∧
      ((p.x - mx) / d * (6/10) * ((90 - d) / 90)) ^ 2 +
        ((p.y - my) / d * (6/10) * ((90 - d) / 90)) ^ 2 =
          ((6/10) * ((90 - d) / 90)) ^ 2 ∧
      0 < (6/10) * ((90 - d) / 90)) ∧
    (90 ≤ d → mouseRepel (some (mx, my)) p d = (some p.vx, some p.vy)) ∧
    mouseRepel none p d = (some p.vx, some p.vy) := by
  have hne : d ≠ 0 := ne_of_gt hpos
  refine ⟨?_, ?_, rfl⟩
  · intro h90
    have hunit : ((p.x - mx) / d) ^ 2 + ((p.y - my) / d) ^ 2 = 1 := by
      field_simp
      linarith [hd.2]
    refine ⟨?_, ?_, ?_⟩
    · simp [mouseRepel, jsAdd, jsMul, jsDiv, h90, hne]
    · linear_combination ((6/10) * ((90 - d) / 90)) ^ 2 * hunit
    · have h1 : (0 : ℚ) < 90 - d := by linarith
      positivity
  · intro h90
    simp [mouseRepel, jsAdd, jsMul, jsDiv, not_lt.mpr h90]

/-- C6 witness: the particle `(30, 40)` with pointer at the origin is at
distance 50 and gets the closed-form increment. -/
theorem repel_formula_spec_witness :
    mouseRepel (some (0, 0)) ⟨30, 40, 1, 2, 1⟩ 50 =
      (some (1 + (30 - 0) / 50 * (6/10) * ((90 - 50) / 90)),
       some (2 + (40 - 0) / 50 * (6/10) * ((90 - 50) / 90))) :=
  ((repel_formula_spec 0 0 ⟨30, 40, 1, 2, 1⟩ 50 ⟨by norm_num, by norm_num⟩
    (by norm_num)).1 (by norm_num)).1

/-- C6 counterexample: a particle coinciding with the pointer is at
distance `0 < 90`, yet the update divides `0 / 0` and both velocity
components come out non-finite (`none`, NaN in JavaScript) — there is no
finite increment of magnitude `0.6 * (90 - 0) / 90 = 0.6` at all. -/
theorem repel_zero_distance_cex :
    IsDist (5 : ℚ) 5 5 5 0 ∧ (0 : ℚ) < 90 ∧
    mouseRepel (some (5, 5)) ⟨5, 5, 1, 1, 1⟩ 0 = (none, none) := by
  refine ⟨⟨le_refl 0, by norm_num⟩, by norm_num, ?_⟩
  simp [mouseRepel, jsAdd, jsMul, jsDiv]

/-- C10 (amended): at a strictly positive distance below the interaction
radius the updated velocity components are finite; the coincident case is
refuted separately. -/
theorem repel_finite_spec (mx my : ℚ) (p : Particle) (d : ℚ)
    (_hd : IsDist p.x p.y mx my d) (h0 : 0 < d) (h90 : d < 90) :
    (mouseRepel (some (mx, my)) p d).1.isSome = true ∧
    (mouseRepel (some (mx, my)) p d).2.isSome = true := by
  have hne : d ≠ 0 := ne_of_gt h0
  constructor <;> simp [mouseRepel, jsAdd, jsMul, jsDiv, h90, hne]

/-- C10 witness: the particle `(3, 4)` with pointer at the origin is at
distance 5 and keeps finite velocity components. -/
theorem repel_finite_spec_witness :
    (mouseRepel (some (0, 0)) ⟨3, 4, 0, 0, 1⟩ 5).1.isSome = true ∧
    (mouseRepel (some (0, 0)) ⟨3, 4, 0, 0, 1⟩ 5).2.isSome = true :=
  repel_finite_spec 0 0 ⟨3, 4, 0, 0, 1⟩ 5 ⟨by norm_num, by norm_num⟩
    (by norm_num) (by norm_num)

/-- C10 counterexample: a particle exactly at the pointer position
(distance 0, inside the radius) gets `0 / 0` in the direction
computation, so neither velocity component stays finite — in JavaScript
both become NaN. -/
theorem repel_nan_cex :
    IsDist (3 : ℚ) 4 3 4 0 ∧ (0 : ℚ) < 90 ∧
    (mouseRepel (some (3, 4)) ⟨3, 4, 2, 2, 1⟩ 0).1 = none ∧
    (mouseRepel (some (3, 4)) ⟨3, 4, 2, 2, 1⟩ 0).2 = none := by
  refine ⟨⟨le_refl 0, by norm_num⟩, by norm_num, ?_, ?_⟩ <;>
    simp [mouseRepel, jsAdd, jsMul, jsDiv]

/-- C8: when the gate fails at the start of a frame step, the step nulls
the handle (removing it from the pending set), emits exactly the one
full-canvas clear, leaves every particle untouched, and schedules
nothing. -/
theorem step_gate_fail_spec (sq : ℚ → ℚ) (s : World)
    (h : shouldRun s.env = false) :
    (step sq s).1.particles = s.particles ∧
    (step sq s).1.animationId = none ∧
    (step sq s).1.pending = cancelPending s.pending s.animationId ∧
    (step sq s).1.nextHandle = s.nextHandle ∧
    (step sq s).2 = [DrawOp.clear (s.canvasW : ℚ) (s.canvasH : ℚ)] := by
  refine ⟨?_, ?_, ?_, ?_, ?_⟩ <;> simp [step, h]

/-- C8 witness: a concrete state whose viewport is 600 wide (gate fails)
steps to a cleared surface with everything else intact. -/
theorem step_gate_fail_spec_witness :
    (step id ⟨⟨false, 600, 800, some "on", 1⟩, 600, 800,
        [⟨1, 2, 3, 4, 1⟩], none, some 7, [7], 8⟩).1.particles =
      [⟨1, 2, 3, 4, 1⟩] ∧
    (step id ⟨⟨false, 600, 800, some "on", 1⟩, 600, 800,
        [⟨1, 2, 3, 4, 1⟩], none, some 7, [7], 8⟩).1.animationId = none ∧
    (step id ⟨⟨false, 600, 800, some "on", 1⟩, 600, 800,
        [⟨1, 2, 3, 4, 1⟩], none, some 7, [7], 8⟩).1.pending =
      cancelPending [7] (some 7) ∧
    (step id ⟨⟨false, 600, 800, some "on", 1⟩, 600, 800,
        [⟨1, 2, 3, 4, 1⟩], none, some 7, [7], 8⟩).1.nextHandle = 8 ∧
    (step id ⟨⟨false, 600, 800, some "on", 1⟩, 600, 800,
        [⟨1, 2, 3, 4, 1⟩], none, some 7, [7], 8⟩).2 =
      [DrawOp.clear ((600 : ℤ) : ℚ) ((800 : ℤ) : ℚ)] :=
  step_gate_fail_spec id
    ⟨⟨false, 600, 800, some "on", 1⟩, 600, 800,
      [⟨1, 2, 3, 4, 1⟩], none, some 7, [7], 8⟩ (by decide)

/-- C9: if the gate (checked after the attribute is normalized) denies
running at init time, `init` only normalizes the attribute: no particles,
no listeners, no scheduled frame. -/
theorem init_gate_denied_spec (env : Env) (s1 s2 : ℕ → Particle)
    (h : shouldRun { env with visuals := normalizeVisuals env.visuals } = false) :
    init env s1 s2 =
      { visuals := normalizeVisuals env.visuals, particles := [],
        listenersRegistered := false, animationId := none } := by
  simp [init, h]

/-- C9 witness: with `data-visuals` set to `"off"` before init, `init`
returns the inert result. -/
theorem init_gate_denied_spec_witness :
    init ⟨false, 1920, 1080, some "off", 1⟩ (fun _ => ⟨0, 0, 0, 0, 1⟩)
        (fun _ => ⟨0, 0, 0, 0, 1⟩) =
      { visuals := normalizeVisuals (some "off"), particles := [],
        listenersRegistered := false, animationId := none } :=
  init_gate_denied_spec ⟨false, 1920, 1080, some "off", 1⟩ _ _ (by decide)

/-- C1 (bug evidence): on a 1920×1080 viewport with the gate passing, the
target count is 120, yet immediately after `init` the particle array
holds 240 particles — `resize()` (line 150) already grew it to the
target, and lines 152-154 push the same number again.  The invariant
claimed by the spec is violated until the next resize event. -/
theorem init_double_population :
    targetCount 1920 1080 = 120 ∧
    (init ⟨false, 1920, 1080, none, 1⟩ (fun _ => ⟨0, 0, 0, 0, 1⟩)
      (fun _ => ⟨0, 0, 0, 0, 1⟩)).particles.length = 240 := by
  refine ⟨targetCount_1920_1080, ?_⟩
  have hrun : shouldRun { (⟨false, 1920, 1080, none, 1⟩ : Env) with
      visuals := normalizeVisuals none } = true := by decide
  simp [init, hrun, resizeList_length, targetCount_1920_1080]

/-- C4: in every reachable state at most one frame handle is pending; a
hide event cancels the pending frame and nulls the handle; a show event
with nothing stored and the gate passing leaves exactly one pending
frame. -/
theorem frame_handle_invariant (s : LoopState) (gate : Bool)
    (hs : Reach s) :
    s.pending.length ≤ 1 ∧
    (onVisibility s true gate).animationId = none ∧
    (onVisibility s true gate).pending = [] ∧
    (s.animationId = none → gate = true →
      (onVisibility s false gate).pending.length = 1) := by
  have hinv := reach_handleInv s hs
  refine ⟨handleInv_pending_length s hinv, ?_, ?_, ?_⟩
  · simp [onVisibility]
  · rcases hinv with ⟨ha, hp⟩ | ⟨hnd, ha, hp⟩ <;>
      simp [onVisibility, cancelPending, ha, hp]
  · intro ha hg
    rcases hinv with ⟨_, hp⟩ | ⟨hnd, ha', hp⟩
    · simp [onVisibility, ha, hg, schedule, hp]
    · simp [ha] at ha'

/-- C4 witness: the gate-denied initial state carries the invariant and
reacts to both visibility events as claimed. -/
theorem frame_handle_invariant_witness :
    (⟨none, [], 1⟩ : LoopState).pending.length ≤ 1 ∧
    (onVisibility ⟨none, [], 1⟩ true true).animationId = none ∧
    (onVisibility ⟨none, [], 1⟩ true true).pending = [] ∧
    ((⟨none, [], 1⟩ : LoopState).animationId = none → true = true →
      (onVisibility ⟨none, [], 1⟩ false true).pending.length = 1) :=
  frame_handle_invariant ⟨none, [], 1⟩ true Reach.initSkip
